import Mathlib

/-!
Verification of the VNM incident-manager administration scripts
(src/im-update1.py and src/im-delete-contacts.py).

The scripts are shallowly embedded: remote AWS calls are modelled by
oracle structures supplying the outcome of each remote interaction, and
every *mutating* remote call an operation performs is recorded in an
explicit trace (a list of MutCall values).  Pure computation — in
particular the engagement-plan builder inside create_or_update_contact
(im-update1.py lines 259-324) — is translated directly.
-/

/-- A botocore ClientError, identified by its AWS error code
(the Code field of the Error entry of e.response). -/
structure ClientError where
  code : String
deriving DecidableEq

/-- An AWS resource identifier (ARN), kept abstract as a string. -/
abbrev Arn := String

/-- One entry of a contact's channel list in CONTACTS_DEFINITION
(im-update1.py lines 24-62): type, delivery address and engagement
delay in minutes.  Delays are validated to be ≥ 0 (line 436), so they
are embedded as Nat. -/
structure ChannelConfig where
  type : String
  address : String
  engagement_time_minutes : Nat
deriving DecidableEq

/-- One element of the channel_info list built at im-update1.py lines
262-270: a channel together with its successfully created channel ARN
and its engagement time. -/
structure ChannelInfo where
  arn : Arn
  engagement_time : Nat
  type : String
deriving DecidableEq

/-- A target entry of a plan stage ("ChannelTargetInfo",
im-update1.py lines 309-314). -/
structure Target where
  contactChannelId : Arn
  retryIntervalInMinutes : Nat
deriving DecidableEq

/-- A stage of an engagement plan (im-update1.py lines 317-320). -/
structure Stage where
  DurationInMinutes : Nat
  Targets : List Target
deriving DecidableEq

/-- Lookup in a Python dict represented as the chronological list of
(key, value) writes: the LAST write to a key wins (dict assignment
overwrites). -/
def dget (writes : List (String × Arn)) (k : String) : Option Arn :=
  writes.reverse.lookup k

/-- The mutating remote API calls the scripts can perform.  Read-only
calls (get_contact, list_contact_channels, get_response_plan,
list_response_plans, get_caller_identity) are not mutations and are
not traced. -/
inductive MutCall where
  | createContact
  | createContactChannel (channelType : String)
  | updateContactPlan (stages : List Stage)
  | updateResponsePlan (engagements : List Arn)
  | deleteContactChannel (channelArn : Arn)
  | deleteContact (contactAlias : String)
deriving DecidableEq

abbrev Trace := List MutCall

/-! ### The engagement-plan builder (im-update1.py lines 259-324) -/

/-- engagement_groups[t] (lines 272-278): the channels of channel_info
whose engagement time is t, in channel_info order (Python dict-of-lists
insertion order). -/
def groupAt (t : Nat) (info : List ChannelInfo) : List ChannelInfo :=
  info.filter (fun c => c.engagement_time == t)

/-- The Targets list built for the group at engagement time t
(lines 306-314): one ChannelTargetInfo per channel, RetryIntervalInMinutes
fixed at 2. -/
def targetsAt (t : Nat) (info : List ChannelInfo) : List Target :=
  (groupAt t info).map (fun c => { contactChannelId := c.arn, retryIntervalInMinutes := 2 })

/-- sorted(engagement_groups.keys()) (line 281): the distinct engagement
times in ascending order. -/
def sortedEngagementTimes (info : List ChannelInfo) : List Nat :=
  List.insertionSort (· ≤ ·) (info.map (fun c => c.engagement_time)).dedup

/-- The loop of lines 295-324: one stage per distinct engagement time, in
ascending order; a stage's duration is the gap to the next engagement
time, and the last stage's duration is forced to 1 (lines 299-303). -/
def groupStages (info : List ChannelInfo) : List Nat → List Stage
  | [] => []
  | [t] => [{ DurationInMinutes := 1, Targets := targetsAt t info }]
  | t :: t' :: rest =>
      { DurationInMinutes := t' - t, Targets := targetsAt t info }
        :: groupStages info (t' :: rest)

/-- Lines 286-292: if the smallest engagement time is positive, an
initial stage with no targets and that duration is emitted first. -/
def initialStages : List Nat → List Stage
  | [] => []
  | t :: _ => if 0 < t then [{ DurationInMinutes := t, Targets := [] }] else []

/-- plan_stages as built at lines 259-324 from the channel_info list. -/
def plan_stages (info : List ChannelInfo) : List Stage :=
  initialStages (sortedEngagementTimes info) ++ groupStages info (sortedEngagementTimes info)

/-- Sum of the wait durations of the stages strictly before position p;
the absolute time at which stage p's targets are engaged. -/
def waitBefore (info : List ChannelInfo) (p : Nat) : Nat :=
  (((plan_stages info).take p).map (fun s => s.DurationInMinutes)).sum

/-- channel_info construction (lines 262-270): each configured channel
whose type received a channel ARN contributes one entry, in
configuration order. -/
def buildChannelInfo (channels : List ChannelConfig) (arnsByType : List (String × Arn)) :
    List ChannelInfo :=
  channels.filterMap (fun cc =>
    match dget arnsByType cc.type with
    | some a => some { arn := a, engagement_time := cc.engagement_time_minutes, type := cc.type }
    | none => none)

/-! ### Retry wrapper (im-update1.py lines 126-135) -/

/-- CONFIG["retry_attempts"] (im-update1.py line 82). -/
def retry_attempts : Nat := 3

/-- CONFIG["retry_delay"] in seconds (im-update1.py line 83). -/
def retry_delay : Nat := 2

/-- The body of retry_operation's for-loop over range(n).  The wrapped
operation is modelled as a function from the attempt index to that
attempt's outcome; only ClientError failures are caught (line 131).
Returns the loop's result (ok none is Python's implicit None when the
range is empty) together with the list of sleeps performed. -/
def retry_loop (op : Nat → Except ClientError α) (n : Nat) :
    List Nat → Except ClientError (Option α) × List Nat
  | [] => (.ok none, [])
  | attempt :: rest =>
    match op attempt with
    | .ok a => (.ok (some a), [])
    | .error e =>
      if attempt = n - 1 then (.error e, [])
      else
        let r := retry_loop op n rest
        (r.1, retry_delay :: r.2)

/-- retry_operation (im-update1.py lines 126-135). -/
def retry_operation (op : Nat → Except ClientError α) :
    Except ClientError (Option α) × List Nat :=
  retry_loop op retry_attempts (List.range retry_attempts)

/-! ### im-update1.py operations

Remote outcomes are supplied by an oracle.  Fields that model a call
wrapped in retry_operation hold the final outcome after retries (the
retry mechanics are verified separately on retry_operation itself). -/

structure UpdateOracle where
  /-- Outcome of get_contact in contact_exists (line 145). -/
  getContactResult : Except ClientError Unit
  /-- Outcome of create_contact after retries (lines 210-216). -/
  createContactResult : Except ClientError Arn
  /-- Outcome of list_contact_channels in Step 2 (line 226): the listed
  (Type, ContactChannelArn) pairs. -/
  listChannelsResult : Except ClientError (List (String × Arn))
  /-- Outcome, per channel type, of create_contact_channel's remote call
  after retries (lines 176-182). -/
  createChannelResult : String → Except ClientError Arn
  /-- Outcome, per channel type, of the fresh list_contact_channels
  performed on the ConflictException path (line 189). -/
  listChannelsAfterConflict : String → Except ClientError (List (String × Arn))

/-- contact_exists (im-update1.py lines 137-152): ResourceNotFoundException
means absent; other ClientErrors re-raise. -/
def contact_exists (dryRun : Bool) (o : UpdateOracle) : Except ClientError Bool :=
  if dryRun then .ok false
  else
    match o.getContactResult with
    | .ok _ => .ok true
    | .error e =>
      if e.code = "ResourceNotFoundException" then .ok false else .error e

/-- get_existing_contact_channels (im-update1.py lines 154-164): the
type → ARN dict from the listing, and the empty dict on ANY ClientError. -/
def get_existing_contact_channels (dryRun : Bool)
    (listing : Except ClientError (List (String × Arn))) : List (String × Arn) :=
  if dryRun then []
  else
    match listing with
    | .ok chans => chans
    | .error _ => []

/-- create_contact_channel (im-update1.py lines 166-193).  Returns the
channel ARN (None in dry-run, or when the conflict path finds no channel
of this type in the fresh listing) and the trace of mutating calls; on a
non-conflict ClientError the error propagates.  The remote create call
is emitted once it is attempted, whatever its outcome. -/
def create_contact_channel (dryRun : Bool) (cc : ChannelConfig) (o : UpdateOracle) :
    Except ClientError (Option Arn) × Trace :=
  if dryRun then (.ok none, [])
  else
    match o.createChannelResult cc.type with
    | .ok arn => (.ok (some arn), [MutCall.createContactChannel cc.type])
    | .error e =>
      if e.code = "ConflictException" then
        (.ok (dget (get_existing_contact_channels false (o.listChannelsAfterConflict cc.type))
                cc.type),
         [MutCall.createContactChannel cc.type])
      else (.error e, [MutCall.createContactChannel cc.type])

/-- The channel loop for a NEW contact (im-update1.py lines 237-243):
create every configured channel; record type → ARN writes in loop order. -/
def createAllChannels (dryRun : Bool) (o : UpdateOracle) :
    List ChannelConfig → Except ClientError (List (String × Arn)) × Trace
  | [] => (.ok [], [])
  | cc :: rest =>
    match create_contact_channel dryRun cc o with
    | (.error e, tr) => (.error e, tr)
    | (.ok none, tr) =>
      let r := createAllChannels dryRun o rest
      (r.1, tr ++ r.2)
    | (.ok (some a), tr) =>
      let r := createAllChannels dryRun o rest
      (r.1.map (fun ws => (cc.type, a) :: ws), tr ++ r.2)

/-- The channel loop for an EXISTING contact (im-update1.py lines
224-236): reuse a listed channel of the same type, otherwise create it. -/
def reuseOrCreateChannels (dryRun : Bool) (existing : List (String × Arn)) (o : UpdateOracle) :
    List ChannelConfig → Except ClientError (List (String × Arn)) × Trace
  | [] => (.ok [], [])
  | cc :: rest =>
    match dget existing cc.type with
    | some a =>
      let r := reuseOrCreateChannels dryRun existing o rest
      (r.1.map (fun ws => (cc.type, a) :: ws), r.2)
    | none =>
      match create_contact_channel dryRun cc o with
      | (.error e, tr) => (.error e, tr)
      | (.ok none, tr) =>
        let r := reuseOrCreateChannels dryRun existing o rest
        (r.1, tr ++ r.2)
      | (.ok (some a), tr) =>
        let r := reuseOrCreateChannels dryRun existing o rest
        (r.1.map (fun ws => (cc.type, a) :: ws), tr ++ r.2)

/-- create_or_update_contact (im-update1.py lines 195-357).  In dry-run
it returns the contact ARN immediately (lines 198-201).  Otherwise:
check existence, create the contact if absent, run the channel loop,
and — when any channel ARN was collected — attempt update_contact with
the built plan_stages (its ClientError is caught and only logged,
lines 347-349). -/
def create_or_update_contact (dryRun : Bool) (contactArn : Arn)
    (channels : List ChannelConfig) (o : UpdateOracle) :
    Except ClientError (Option Arn) × Trace :=
  if dryRun then (.ok (some contactArn), [])
  else
    match contact_exists false o with
    | .error e => (.error e, [])
    | .ok ex =>
      let step1 : Except ClientError Arn × Trace :=
        if ex then (.ok contactArn, [])
        else
          match o.createContactResult with
          | .ok a => (.ok a, [MutCall.createContact])
          | .error e => (.error e, [MutCall.createContact])
      match step1 with
      | (.error e, tr1) => (.error e, tr1)
      | (.ok arn, tr1) =>
        let step2 :=
          if ex then
            reuseOrCreateChannels false
              (get_existing_contact_channels false o.listChannelsResult) o channels
          else createAllChannels false o channels
        match step2 with
        | (.error e, tr2) => (.error e, tr1 ++ tr2)
        | (.ok arnsByType, tr2) =>
          if arnsByType.isEmpty then (.ok (some arn), tr1 ++ tr2)
          else
            (.ok (some arn),
             tr1 ++ tr2
               ++ [MutCall.updateContactPlan (plan_stages (buildChannelInfo channels arnsByType))])

structure PlanOracle where
  /-- Outcome of get_response_plan (line 386). -/
  getResponsePlan : Except ClientError Unit
  /-- Outcome of update_response_plan after retries (lines 396-400). -/
  updateResponsePlan : Except ClientError Unit

/-- update_response_plan (im-update1.py lines 363-405): build the
engagement list from the collected contact ARNs; return silently when it
is empty, or in dry-run; return silently when the plan is not found;
otherwise attempt the update. -/
def update_response_plan (dryRun : Bool) (contactsToEngage : List String)
    (contactArns : List (String × Arn)) (o : PlanOracle) :
    Except ClientError Unit × Trace :=
  let engagements := contactsToEngage.filterMap (fun a => dget contactArns a)
  if engagements.isEmpty then (.ok (), [])
  else if dryRun then (.ok (), [])
  else
    match o.getResponsePlan with
    | .error e =>
      if e.code = "ResourceNotFoundException" then (.ok (), []) else (.error e, [])
    | .ok _ =>
      match o.updateResponsePlan with
      | .ok _ => (.ok (), [MutCall.updateResponsePlan engagements])
      | .error e => (.error e, [MutCall.updateResponsePlan engagements])

/-! ### im-update1.py main (lines 485-546) -/

/-- The contact loop of main (im-update1.py lines 513-522): each contact
definition is processed; an exception is caught, sets success = False
and the loop continues.  Returns (contact_arns in insertion order,
success flag, trace). -/
def processContacts (dryRun : Bool) (orc : String → UpdateOracle) :
    List (String × Arn × List ChannelConfig) →
      List (String × Arn) × Bool × Trace
  | [] => ([], true, [])
  | (a, arn, chans) :: rest =>
    let r := create_or_update_contact dryRun arn chans (orc a)
    let next := processContacts dryRun orc rest
    match r.1 with
    | .ok (some carn) => ((a, carn) :: next.1, next.2.1, r.2 ++ next.2.2)
    | .ok none => (next.1, next.2.1, r.2 ++ next.2.2)
    | .error _ => (next.1, false, r.2 ++ next.2.2)

/-- The response-plan loop of main (im-update1.py lines 528-534):
failures are caught, set success = False, and the loop continues. -/
def processPlans (dryRun : Bool) (orc : String → PlanOracle)
    (contactArns : List (String × Arn)) :
    List (String × List String) → Bool × Trace
  | [] => (true, [])
  | (name, toEngage) :: rest =>
    let r := update_response_plan dryRun toEngage contactArns (orc name)
    let next := processPlans dryRun orc contactArns rest
    match r.1 with
    | .ok _ => (next.1, r.2 ++ next.2)
    | .error _ => (false, r.2 ++ next.2)

/-- main's return value (im-update1.py lines 509-543): True iff every
contact and every response plan processed without failure. -/
def update_main_result (dryRun : Bool) (orc : String → UpdateOracle)
    (orcp : String → PlanOracle)
    (contactDefs : List (String × Arn × List ChannelConfig))
    (planDefs : List (String × List String)) : Bool :=
  let c := processContacts dryRun orc contactDefs
  let p := processPlans dryRun orcp c.1 planDefs
  c.2.1 && p.1

/-- The process exit status of im-update1.py.  Line 546 calls main()
without passing its return value to exit(), so the interpreter exits 0
whether or not main reported success. -/
def update_script_exit_status (_dryRun : Bool) (_orc : String → UpdateOracle)
    (_orcp : String → PlanOracle)
    (_contactDefs : List (String × Arn × List ChannelConfig))
    (_planDefs : List (String × List String)) : Nat :=
  0

/-- The per-contact lines of im-update1.py's print_summary (lines
459-469): only the contacts recorded in contact_arns — the successful
ones — are listed; failed aliases do not appear. -/
def update_summary_contacts (dryRun : Bool) (orc : String → UpdateOracle)
    (contactDefs : List (String × Arn × List ChannelConfig)) : List String :=
  (processContacts dryRun orc contactDefs).1.map Prod.fst

/-! ### im-delete-contacts.py operations -/

structure DeleteOracle where
  /-- Outcome of get_contact in get_contact_details (line 84); the
  display name on success. -/
  getContactRaw : Except ClientError String
  /-- Outcome of list_contact_channels in get_contact_channels
  (line 100): the listed channel ARNs. -/
  listChannelsRaw : Except ClientError (List Arn)
  /-- The response plans found to engage this contact by
  get_response_plans_using_contact (lines 112-130, a read-only scan of
  list_response_plans / get_response_plan). -/
  plansUsingContact : List String
  /-- Per plan, the outcome of get_response_plan inside
  remove_contact_from_response_plan (line 142): the current engagement
  list. -/
  getPlanEngagements : String → Except ClientError (List Arn)
  /-- Outcome of the final delete_contact call (line 212). -/
  deleteContactResult : Except ClientError Unit

/-- get_contact_details (im-delete-contacts.py lines 80-95):
ResourceNotFoundException yields None; other ClientErrors re-raise. -/
def get_contact_details (o : DeleteOracle) : Except ClientError (Option String) :=
  match o.getContactRaw with
  | .ok name => .ok (some name)
  | .error e =>
    if e.code = "ResourceNotFoundException" then .ok none else .error e

/-- get_contact_channels (im-delete-contacts.py lines 97-110): the
listed channels, or [] on any ClientError. -/
def get_contact_channels (o : DeleteOracle) : List Arn :=
  match o.listChannelsRaw with
  | .ok l => l
  | .error _ => []

/-- remove_contact_from_response_plan (im-delete-contacts.py lines
132-159): guarded by dry-run; reads the plan (errors are caught and
logged); calls update_response_plan only when the contact was actually
in the engagement list.  Returns the trace of mutating calls. -/
def remove_contact_from_response_plan (dryRun : Bool) (contactArn : Arn)
    (plan : String) (o : DeleteOracle) : Trace :=
  if dryRun then []
  else
    match o.getPlanEngagements plan with
    | .error _ => []
    | .ok engs =>
      let newEngs := engs.filter (fun eng => eng ≠ contactArn)
      if newEngs.length < engs.length then
        [MutCall.updateResponsePlan newEngs]
      else []

/-- delete_contact_channel (im-delete-contacts.py lines 161-171):
guarded by dry-run; errors of the delete call are caught and logged. -/
def delete_contact_channel (dryRun : Bool) (channelArn : Arn) : Trace :=
  if dryRun then [] else [MutCall.deleteContactChannel channelArn]

/-- delete_contact (im-delete-contacts.py lines 173-218).  Not-found
logs a warning and returns False (lines 178-180); a non-not-found
lookup error propagates; otherwise response-plan detachment and channel
deletion run (each individually dry-run guarded), and the final delete
is dry-run guarded, returning False when it fails (lines 208-216). -/
def delete_contact (dryRun : Bool) (contactAlias : String) (contactArn : Arn)
    (removeFromPlans : Bool) (o : DeleteOracle) : Except ClientError Bool × Trace :=
  match get_contact_details o with
  | .error e => (.error e, [])
  | .ok none => (.ok false, [])
  | .ok (some _) =>
    let channels := get_contact_channels o
    let planTrace :=
      if removeFromPlans then
        (o.plansUsingContact.map
          (fun p => remove_contact_from_response_plan dryRun contactArn p o)).flatten
      else []
    let chanTrace := (channels.map (fun c => delete_contact_channel dryRun c)).flatten
    if dryRun then (.ok true, planTrace ++ chanTrace)
    else
      match o.deleteContactResult with
      | .ok _ => (.ok true, planTrace ++ chanTrace ++ [MutCall.deleteContact contactAlias])
      | .error _ => (.ok false, planTrace ++ chanTrace ++ [MutCall.deleteContact contactAlias])

/-! ### im-delete-contacts.py main (lines 277-333) -/

/-- The deletion loop of main (im-delete-contacts.py lines 315-324):
each alias is processed; an exception is caught and recorded as False,
and the loop continues.  Returns the contacts_processed map (in work
order) and the trace. -/
def processDeletions (dryRun removeFromPlans : Bool) (orc : String → DeleteOracle) :
    List String → List (String × Bool) × Trace
  | [] => ([], [])
  | a :: rest =>
    let r := delete_contact dryRun a ("arn:contact/" ++ a) removeFromPlans (orc a)
    let next := processDeletions dryRun removeFromPlans orc rest
    match r.1 with
    | .ok b => ((a, b) :: next.1, r.2 ++ next.2)
    | .error _ => ((a, false) :: next.1, r.2 ++ next.2)

/-- The process exit status of im-delete-contacts.py (lines 329-333):
main returns all(contacts_processed.values()) and line 333 runs
exit(0 if success else 1). -/
def delete_script_exit (processed : List (String × Bool)) : Nat :=
  if processed.all (fun p => p.2) then 0 else 1

/-- The "Failed deletions" section of print_summary (im-delete-contacts.py
lines 236-240): the aliases recorded as unsuccessful. -/
def failedAliases (processed : List (String × Bool)) : List String :=
  (processed.filter (fun p => !p.2)).map Prod.fst

/-! ### Properties of the engagement-plan builder -/

lemma initialStages_targets {ts : List Nat} {s : Stage} (h : s ∈ initialStages ts) :
    s.Targets = [] := by
  cases ts with
  | nil => simp [initialStages] at h
  | cons t ts' =>
    simp only [initialStages] at h
    rcases Nat.lt_or_ge 0 t with hpos | hz
    · rw [if_pos hpos] at h
      simp only [List.mem_singleton] at h
      rw [h]
    · rw [if_neg (by omega)] at h
      simp at h

lemma initialStages_durSum (ts : List Nat) :
    ((initialStages ts).map (fun s => s.DurationInMinutes)).sum = ts.headD 0 := by
  cases ts with
  | nil => simp [initialStages]
  | cons t ts' =>
    simp only [initialStages]
    rcases Nat.lt_or_ge 0 t with hpos | hz
    · rw [if_pos hpos]; simp
    · rw [if_neg (by omega)]; simp; omega

lemma sortedEngagementTimes_sorted (info : List ChannelInfo) :
    List.Sorted (· ≤ ·) (sortedEngagementTimes info) :=
  List.sorted_insertionSort _ _

lemma sortedEngagementTimes_nodup (info : List ChannelInfo) :
    (sortedEngagementTimes info).Nodup :=
  ((List.perm_insertionSort _ _).symm).nodup (List.nodup_dedup _)

lemma mem_sortedEngagementTimes {info : List ChannelInfo} {t : Nat} :
    t ∈ sortedEngagementTimes info ↔ ∃ c ∈ info, c.engagement_time = t := by
  unfold sortedEngagementTimes
  rw [List.mem_insertionSort, List.mem_dedup, List.mem_map]

lemma sortedEngagementTimes_pairwise_lt (info : List ChannelInfo) :
    (sortedEngagementTimes info).Pairwise (· < ·) :=
  ((sortedEngagementTimes_sorted info).and (sortedEngagementTimes_nodup info)).imp
    (fun h => lt_of_le_of_ne h.1 h.2)

lemma groupStages_length (info : List ChannelInfo) :
    ∀ ts : List Nat, (groupStages info ts).length = ts.length
  | [] => rfl
  | [_] => rfl
  | t :: t' :: rest => by
    simp only [groupStages, List.length_cons]
    rw [groupStages_length info (t' :: rest)]
    simp

lemma groupStages_getElem (info : List ChannelInfo) :
    ∀ (ts : List Nat) (i : Nat) (t : Nat), ts[i]? = some t →
      ∃ s : Stage, (groupStages info ts)[i]? = some s ∧ s.Targets = targetsAt t info ∧
        (∀ t', ts[i + 1]? = some t' → s.DurationInMinutes = t' - t) ∧
        (ts[i + 1]? = none → s.DurationInMinutes = 1)
  | [], i, t, h => by simp at h
  | [t0], 0, t, h => by
    simp only [List.getElem?_cons_zero, Option.some_inj] at h
    subst h
    refine ⟨_, rfl, rfl, ?_, fun _ => rfl⟩
    intro t' h'
    simp at h'
  | [t0], i + 1, t, h => by simp at h
  | t0 :: t1 :: rest, 0, t, h => by
    simp only [List.getElem?_cons_zero, Option.some_inj] at h
    subst h
    have hg : groupStages info (t0 :: t1 :: rest)
        = { DurationInMinutes := t1 - t0, Targets := targetsAt t0 info }
            :: groupStages info (t1 :: rest) := rfl
    refine ⟨{ DurationInMinutes := t1 - t0, Targets := targetsAt t0 info },
      by rw [hg, List.getElem?_cons_zero], rfl, ?_, ?_⟩
    · intro t' h'
      simp only [List.getElem?_cons_succ, List.getElem?_cons_zero, Option.some_inj] at h'
      subst h'; rfl
    · intro h'
      simp at h'
  | t0 :: t1 :: rest, i + 1, t, h => by
    obtain ⟨s, hs, h1, h2, h3⟩ :=
      groupStages_getElem info (t1 :: rest) i t (by simpa using h)
    exact ⟨s, by simpa [groupStages] using hs, h1,
      fun t' h' => h2 t' (by simpa using h'),
      fun h' => h3 (by simpa using h')⟩

lemma groupStages_take_sum (info : List ChannelInfo) :
    ∀ ts : List Nat, ts.Pairwise (· < ·) →
      ∀ (i : Nat) (t : Nat), ts[i]? = some t →
        (((groupStages info ts).take i).map (fun s => s.DurationInMinutes)).sum
          = t - ts.headD 0
  | [], _, i, t, h => by simp at h
  | [t0], _, 0, t, h => by
    simp only [List.getElem?_cons_zero, Option.some_inj] at h
    subst h; simp
  | [t0], _, i + 1, t, h => by simp at h
  | t0 :: t1 :: rest, _, 0, t, h => by
    simp only [List.getElem?_cons_zero, Option.some_inj] at h
    subst h; simp
  | t0 :: t1 :: rest, hpw, i + 1, t, h => by
    have hpw' : (t1 :: rest).Pairwise (· < ·) := hpw.of_cons
    have ih := groupStages_take_sum info (t1 :: rest) hpw' i t (by simpa using h)
    have h01 : t0 < t1 := List.rel_of_pairwise_cons hpw (by simp)
    have h1t : t1 ≤ t := by
      have hmem : t ∈ t1 :: rest := List.getElem?_mem (by simpa using h)
      rcases List.mem_cons.mp hmem with rfl | hmem'
      · exact le_refl t
      · exact le_of_lt (List.rel_of_pairwise_cons hpw' hmem')
    show ((({ DurationInMinutes := t1 - t0, Targets := targetsAt t0 info } : Stage)
        :: groupStages info (t1 :: rest)).take (i + 1)
          |>.map (fun s => s.DurationInMinutes)).sum = t - (t0 :: t1 :: rest).headD 0
    rw [List.take_succ_cons, List.map_cons, List.sum_cons, ih]
    simp only [List.headD_cons]
    omega

lemma groupStages_duration_pos (info : List ChannelInfo) :
    ∀ ts : List Nat, ts.Pairwise (· < ·) →
      ∀ s ∈ groupStages info ts, 1 ≤ s.DurationInMinutes
  | [], _, s, hs => by simp [groupStages] at hs
  | [t0], _, s, hs => by
    simp only [groupStages, List.mem_singleton] at hs
    rw [hs]
  | t0 :: t1 :: rest, hpw, s, hs => by
    have h01 : t0 < t1 := List.rel_of_pairwise_cons hpw (by simp)
    rcases List.mem_cons.mp hs with rfl | hs'
    · show 1 ≤ t1 - t0; omega
    · exact groupStages_duration_pos info (t1 :: rest) hpw.of_cons s hs'

lemma groupStages_targets_mem (info : List ChannelInfo) :
    ∀ ts : List Nat, ∀ s ∈ groupStages info ts, ∃ t ∈ ts, s.Targets = targetsAt t info
  | [], s, hs => by simp [groupStages] at hs
  | [t0], s, hs => by
    simp only [groupStages, List.mem_singleton] at hs
    exact ⟨t0, by simp, by rw [hs]⟩
  | t0 :: t1 :: rest, s, hs => by
    rcases List.mem_cons.mp hs with rfl | hs'
    · exact ⟨t0, by simp, rfl⟩
    · obtain ⟨t, ht, hteq⟩ := groupStages_targets_mem info (t1 :: rest) s hs'
      exact ⟨t, by simp [List.mem_cons.mp ht], hteq⟩

lemma targetsAt_ne_nil {info : List ChannelInfo} {t : Nat}
    (h : ∃ c ∈ info, c.engagement_time = t) : targetsAt t info ≠ [] := by
  obtain ⟨c, hc, rfl⟩ := h
  have hmem : c ∈ groupAt c.engagement_time info :=
    List.mem_filter.mpr ⟨hc, by simp⟩
  intro hnil
  have : ({ contactChannelId := c.arn, retryIntervalInMinutes := 2 } : Target)
      ∈ targetsAt c.engagement_time info := List.mem_map.mpr ⟨c, hmem, rfl⟩
  rw [hnil] at this
  exact List.not_mem_nil _ this

lemma plan_stages_duration_pos (info : List ChannelInfo) :
    ∀ s ∈ plan_stages info, 1 ≤ s.DurationInMinutes := by
  intro s hs
  rcases List.mem_append.mp hs with h | h
  · cases hts : sortedEngagementTimes info with
    | nil => rw [hts] at h; simp [initialStages] at h
    | cons t0 ts' =>
      rw [hts] at h
      simp only [initialStages] at h
      rcases Nat.lt_or_ge 0 t0 with hpos | hz
      · rw [if_pos hpos] at h
        simp only [List.mem_singleton] at h
        rw [h]; exact hpos
      · rw [if_neg (by omega)] at h; simp at h
  · exact groupStages_duration_pos info _ (sortedEngagementTimes_pairwise_lt info) s h

lemma sum_take_lt_of_pos {l : List Stage} (h : ∀ s ∈ l, 1 ≤ s.DurationInMinutes) :
    ∀ p q : Nat, p < q → q ≤ l.length →
      ((l.take p).map (fun s => s.DurationInMinutes)).sum
        < ((l.take q).map (fun s => s.DurationInMinutes)).sum := by
  induction l with
  | nil => intro p q hpq hq; simp at hq; omega
  | cons a l ih =>
    intro p q hpq hq
    match p, q with
    | 0, q + 1 =>
      rw [List.take_succ_cons, List.map_cons, List.sum_cons]
      have ha := h a (by simp)
      simp only [List.take_zero, List.map_nil, List.sum_nil]
      omega
    | p + 1, q + 1 =>
      rw [List.take_succ_cons, List.take_succ_cons, List.map_cons, List.map_cons,
        List.sum_cons, List.sum_cons]
      have := ih (fun s hs => h s (by simp [hs])) p q (by omega) (by simpa using hq)
      omega

lemma head_sortedEngagementTimes {info : List ChannelInfo} {d : Nat}
    (hmem : ∃ c ∈ info, c.engagement_time = d)
    (hmin : ∀ c ∈ info, d ≤ c.engagement_time) :
    (sortedEngagementTimes info).head? = some d := by
  have hd : d ∈ sortedEngagementTimes info := mem_sortedEngagementTimes.mpr hmem
  cases hts : sortedEngagementTimes info with
  | nil => rw [hts] at hd; exact absurd hd (List.not_mem_nil d)
  | cons t0 ts' =>
    have h0mem : t0 ∈ sortedEngagementTimes info := by rw [hts]; simp
    obtain ⟨c0, hc0, hc0t⟩ := mem_sortedEngagementTimes.mp h0mem
    have hdt0 : d ≤ t0 := hc0t ▸ hmin c0 hc0
    have ht0d : t0 ≤ d := by
      rw [hts] at hd
      rcases List.mem_cons.mp hd with rfl | hd'
      · exact le_refl d
      · have hs := sortedEngagementTimes_sorted info
        rw [hts] at hs
        exact List.rel_of_pairwise_cons hs hd'
    simp [le_antisymm ht0d hdt0]

lemma groupStages_getLast (info : List ChannelInfo) :
    ∀ ts : List Nat, ts ≠ [] →
      ∃ t, (groupStages info ts).getLast?
        = some { DurationInMinutes := 1, Targets := targetsAt t info }
  | [], h => absurd rfl h
  | [t0], _ => ⟨t0, by simp [groupStages]⟩
  | t0 :: t1 :: rest, _ => by
    obtain ⟨t, ht⟩ := groupStages_getLast info (t1 :: rest) (by simp)
    have hne : groupStages info (t1 :: rest) ≠ [] := by
      intro hnil
      have hl := groupStages_length info (t1 :: rest)
      rw [hnil] at hl
      simp at hl
    refine ⟨t, ?_⟩
    have hsplit : groupStages info (t0 :: t1 :: rest)
        = [{ DurationInMinutes := t1 - t0, Targets := targetsAt t0 info }]
            ++ groupStages info (t1 :: rest) := rfl
    rw [hsplit, List.getLast?_append_of_ne_nil _ hne, ht]

lemma headD_le_of_mem {ts : List Nat} (hpw : ts.Pairwise (· < ·)) {t : Nat}
    (hmem : t ∈ ts) : ts.headD 0 ≤ t := by
  cases ts with
  | nil => exact absurd hmem (List.not_mem_nil t)
  | cons t0 ts' =>
    rcases List.mem_cons.mp hmem with rfl | hmem'
    · simp
    · simpa using le_of_lt (List.rel_of_pairwise_cons hpw hmem')

/-! ### Claim theorems -/

/-- C1: in the engagement plan built from any channel_info list
(delays are non-negative by type, references successfully created by
construction of ChannelInfo), every stage with targets engages exactly
the group of channels sharing one delay value t — every channel with
delay t is among its targets — the wait durations of the stages
preceding it sum to t, and it is the unique stage whose preceding
durations sum to t.  So channels sharing a delay land in one common
stage, and stage durations accumulate in order to the absolute
engagement timestamps (the synthetic duration of the last stage itself
is never part of such a prefix sum). -/
theorem C1_stages_accumulate_to_delays (info : List ChannelInfo) (p : Nat) (s : Stage)
    (hp : (plan_stages info)[p]? = some s) (hne : s.Targets ≠ []) :
    ∃ t, s.Targets = targetsAt t info
      ∧ (∀ c ∈ info, c.engagement_time = t →
          ({ contactChannelId := c.arn, retryIntervalInMinutes := 2 } : Target) ∈ s.Targets)
      ∧ waitBefore info p = t
      ∧ (∀ q s2, (plan_stages info)[q]? = some s2 → waitBefore info q = t → q = p) := by
  have hpw := sortedEngagementTimes_pairwise_lt info
  have hpl : p < (plan_stages info).length := (List.getElem?_eq_some.mp hp).1
  rw [plan_stages, List.getElem?_append] at hp
  by_cases hlt : p < (initialStages (sortedEngagementTimes info)).length
  · rw [if_pos hlt] at hp
    exact absurd (initialStages_targets (List.getElem?_mem hp)) hne
  · rw [if_neg hlt] at hp
    push_neg at hlt
    obtain ⟨i, rfl⟩ : ∃ i, p = (initialStages (sortedEngagementTimes info)).length + i :=
      ⟨p - (initialStages (sortedEngagementTimes info)).length, by omega⟩
    rw [Nat.add_sub_cancel_left] at hp
    obtain ⟨hiB, _⟩ := List.getElem?_eq_some.mp hp
    have hits : i < (sortedEngagementTimes info).length := by
      rw [← groupStages_length info (sortedEngagementTimes info)]
      exact hiB
    have htsi : (sortedEngagementTimes info)[i]?
        = some ((sortedEngagementTimes info).get ⟨i, hits⟩) :=
      List.getElem?_eq_getElem hits
    obtain ⟨s', hs', hTar, _, _⟩ :=
      groupStages_getElem info (sortedEngagementTimes info) i _ htsi
    have hss : s' = s := by
      rw [hs'] at hp
      exact Option.some_inj.mp hp
    subst hss
    have hWp : waitBefore info ((initialStages (sortedEngagementTimes info)).length + i)
        = (sortedEngagementTimes info).get ⟨i, hits⟩ := by
      have hhd : (sortedEngagementTimes info).headD 0
          ≤ (sortedEngagementTimes info).get ⟨i, hits⟩ :=
        headD_le_of_mem hpw (List.getElem?_mem htsi)
      rw [waitBefore, plan_stages, List.take_append_eq_append_take,
        List.take_of_length_le (by omega), Nat.add_sub_cancel_left,
        List.map_append, List.sum_append, initialStages_durSum,
        groupStages_take_sum info (sortedEngagementTimes info) hpw _ _ htsi]
      omega
    refine ⟨_, hTar, ?_, hWp, ?_⟩
    · intro c hc hct
      rw [hTar]
      exact List.mem_map.mpr ⟨c, List.mem_filter.mpr ⟨hc, by simp [hct]⟩, rfl⟩
    · intro q s2 hq hwq
      have hql : q < (plan_stages info).length := (List.getElem?_eq_some.mp hq).1
      have hpos := plan_stages_duration_pos info
      rcases Nat.lt_trichotomy q ((initialStages (sortedEngagementTimes info)).length + i)
        with hlt' | heq | hgt
      · have hW := sum_take_lt_of_pos hpos q
          ((initialStages (sortedEngagementTimes info)).length + i) hlt' (le_of_lt hpl)
        have hW' : waitBefore info q
            < waitBefore info ((initialStages (sortedEngagementTimes info)).length + i) := hW
        omega
      · exact heq
      · have hW := sum_take_lt_of_pos hpos
          ((initialStages (sortedEngagementTimes info)).length + i) q hgt (le_of_lt hql)
        have hW' : waitBefore info ((initialStages (sortedEngagementTimes info)).length + i)
            < waitBefore info q := hW
        omega

def c1winfo : List ChannelInfo :=
  [ { arn := "arn-w1", engagement_time := 5, type := "EMAIL" } ]

def c1wstage : Stage :=
  { DurationInMinutes := 1
  , Targets := [ { contactChannelId := "arn-w1", retryIntervalInMinutes := 2 } ] }

/-- Witness for C1 at the concrete plan of a single channel with delay 5:
stage 1 (after the initial empty wait stage of 5 minutes). -/
theorem C1_stages_accumulate_to_delays_witness :
    ∃ t, c1wstage.Targets = targetsAt t c1winfo
      ∧ (∀ c ∈ c1winfo, c.engagement_time = t →
          ({ contactChannelId := c.arn, retryIntervalInMinutes := 2 } : Target) ∈ c1wstage.Targets)
      ∧ waitBefore c1winfo 1 = t
      ∧ (∀ q s2, (plan_stages c1winfo)[q]? = some s2 → waitBefore c1winfo q = t → q = 1) :=
  C1_stages_accumulate_to_delays c1winfo 1 c1wstage (by decide) (by decide)

/-- C2 input: five channels at delays 0, 0, 15, 15, 10. -/
def c2info : List ChannelInfo :=
  [ { arn := "arn-e1", engagement_time := 0,  type := "EMAIL" }
  , { arn := "arn-e2", engagement_time := 0,  type := "SMS" }
  , { arn := "arn-e3", engagement_time := 15, type := "VOICE" }
  , { arn := "arn-e4", engagement_time := 15, type := "EMAIL" }
  , { arn := "arn-e5", engagement_time := 10, type := "SMS" } ]

/-- C2: for channels at delays {0,0,15,15,10} the builder produces
exactly three stages — duration 10 targeting the delay-0 channels,
duration 5 targeting the delay-10 channel, and duration 1 (the forced
minimum) targeting the delay-15 channels — with no initial empty-target
stage since the smallest delay is 0. -/
theorem C2_concrete_plan :
    plan_stages c2info =
      [ { DurationInMinutes := 10
        , Targets := [ { contactChannelId := "arn-e1", retryIntervalInMinutes := 2 }
                     , { contactChannelId := "arn-e2", retryIntervalInMinutes := 2 } ] }
      , { DurationInMinutes := 5
        , Targets := [ { contactChannelId := "arn-e5", retryIntervalInMinutes := 2 } ] }
      , { DurationInMinutes := 1
        , Targets := [ { contactChannelId := "arn-e3", retryIntervalInMinutes := 2 }
                     , { contactChannelId := "arn-e4", retryIntervalInMinutes := 2 } ] } ] := by
  decide

/-- C3: for every non-empty channel_info list the last stage of the
built plan exists and its wait duration is exactly the forced minimum
1 (hence at least 1). -/
theorem C3_last_stage_duration_one (info : List ChannelInfo) (h : info ≠ []) :
    ∃ s, (plan_stages info).getLast? = some s ∧ s.DurationInMinutes = 1 := by
  obtain ⟨c, hc⟩ : ∃ c, c ∈ info := by
    cases info with
    | nil => exact absurd rfl h
    | cons a l => exact ⟨a, by simp⟩
  have htmem : c.engagement_time ∈ sortedEngagementTimes info :=
    mem_sortedEngagementTimes.mpr ⟨c, hc, rfl⟩
  have htsne : sortedEngagementTimes info ≠ [] := List.ne_nil_of_mem htmem
  have hgne : groupStages info (sortedEngagementTimes info) ≠ [] := by
    intro hnil
    have hl := groupStages_length info (sortedEngagementTimes info)
    rw [hnil] at hl
    exact htsne (List.length_eq_zero.mp hl.symm)
  obtain ⟨t, hlast⟩ := groupStages_getLast info _ htsne
  refine ⟨{ DurationInMinutes := 1, Targets := targetsAt t info }, ?_, rfl⟩
  rw [plan_stages, List.getLast?_append_of_ne_nil _ hgne, hlast]

/-- Witness for C3 at a single channel with delay 5. -/
theorem C3_last_stage_duration_one_witness :
    ∃ s, (plan_stages c1winfo).getLast? = some s ∧ s.DurationInMinutes = 1 :=
  C3_last_stage_duration_one c1winfo (by decide)

/-- C4: if the smallest delay d of the channel list is positive, the
first stage of the plan is an empty-target wait of exactly d minutes;
if the smallest delay is zero, every stage of the plan has targets, so
no empty-target initial stage is emitted. -/
theorem C4_initial_wait_stage (info : List ChannelInfo) (d : Nat)
    (hmem : ∃ c ∈ info, c.engagement_time = d)
    (hmin : ∀ c ∈ info, d ≤ c.engagement_time) :
    (0 < d → (plan_stages info).head? = some { DurationInMinutes := d, Targets := [] }) ∧
    (d = 0 → ∀ s ∈ plan_stages info, s.Targets ≠ []) := by
  have hhead := head_sortedEngagementTimes hmem hmin
  have htsne : sortedEngagementTimes info ≠ [] := by
    intro hnil
    rw [hnil] at hhead
    simp at hhead
  constructor
  · intro hd
    cases hts : sortedEngagementTimes info with
    | nil => exact absurd hts htsne
    | cons t0 ts' =>
      rw [hts, List.head?_cons, Option.some_inj] at hhead
      rw [plan_stages, hts]
      simp only [initialStages]
      rw [hhead, if_pos hd]
      simp
  · intro hd s hs
    rw [plan_stages] at hs
    rcases List.mem_append.mp hs with hinit | hgr
    · cases hts : sortedEngagementTimes info with
      | nil => exact absurd hts htsne
      | cons t0 ts' =>
        rw [hts, List.head?_cons, Option.some_inj] at hhead
        rw [hts] at hinit
        simp only [initialStages] at hinit
        rw [hhead, hd] at hinit
        rw [if_neg (by omega)] at hinit
        exact absurd hinit (List.not_mem_nil s)
    · obtain ⟨t, htmem, htar⟩ := groupStages_targets_mem info _ s hgr
      rw [htar]
      exact targetsAt_ne_nil (mem_sortedEngagementTimes.mp htmem)

/-- Witness for C4 at a single channel with delay 5 (positive minimum)
conjoined with the zero-minimum side at a delay-0 channel list. -/
theorem C4_initial_wait_stage_witness :
    ((0 < 5 → (plan_stages c1winfo).head? = some { DurationInMinutes := 5, Targets := [] }) ∧
      (5 = 0 → ∀ s ∈ plan_stages c1winfo, s.Targets ≠ [])) :=
  C4_initial_wait_stage c1winfo 5 (by decide) (by decide)

/-- C5: when the remote channel-creation call (after retries) fails with
a ConflictException, create_contact_channel treats it as idempotent
success — it returns, without raising, the existing channel's ARN as
found by a fresh listing — while any other ClientError propagates as a
failure for that contact. -/
theorem C5_conflict_is_idempotent_success (cc : ChannelConfig) (o : UpdateOracle)
    (e : ClientError) (chans : List (String × Arn)) (a : Arn)
    (hcreate : o.createChannelResult cc.type = .error e) :
    (e.code = "ConflictException" →
      o.listChannelsAfterConflict cc.type = .ok chans →
      dget chans cc.type = some a →
      (create_contact_channel false cc o).1 = .ok (some a)) ∧
    (e.code ≠ "ConflictException" →
      (create_contact_channel false cc o).1 = .error e) := by
  constructor
  · intro hconf hlist hget
    simp [create_contact_channel, hcreate, hconf, get_existing_contact_channels, hlist, hget]
  · intro hconf
    simp [create_contact_channel, hcreate, hconf]

def c5cc : ChannelConfig :=
  { type := "SMS", address := "+84000000000", engagement_time_minutes := 0 }

def c5oracle : UpdateOracle :=
  { getContactResult := .ok ()
  , createContactResult := .ok "arn-contact"
  , listChannelsResult := .ok []
  , createChannelResult := fun _ => .error { code := "ConflictException" }
  , listChannelsAfterConflict := fun _ => .ok [("SMS", "arn-sms-existing")] }

/-- Witness for C5: a conflicting SMS channel whose ARN is recovered
from the fresh listing. -/
theorem C5_conflict_is_idempotent_success_witness :
    ((ClientError.mk "ConflictException").code = "ConflictException" →
      c5oracle.listChannelsAfterConflict c5cc.type = .ok [("SMS", "arn-sms-existing")] →
      dget [("SMS", "arn-sms-existing")] c5cc.type = some "arn-sms-existing" →
      (create_contact_channel false c5cc c5oracle).1 = .ok (some "arn-sms-existing")) ∧
    ((ClientError.mk "ConflictException").code ≠ "ConflictException" →
      (create_contact_channel false c5cc c5oracle).1
        = .error (ClientError.mk "ConflictException")) :=
  C5_conflict_is_idempotent_success c5cc c5oracle (ClientError.mk "ConflictException")
    [("SMS", "arn-sms-existing")] "arn-sms-existing" (by rfl)

/-- C6: retry_operation attempts the wrapped call up to
CONFIG["retry_attempts"] = 3 times, sleeping the fixed
CONFIG["retry_delay"] between consecutive attempts; a success at
attempt k after k failures is returned having slept k times, and when
every attempt fails the error of the final attempt is re-raised after
retry_attempts - 1 sleeps.  Both halves hold uniformly in the error
values supplied, so every ClientError is retried identically with no
distinction between error classes. -/
theorem C6_retry_behaviour {α : Type} (op : Nat → Except ClientError α) :
    (∀ (k : Nat) (a : α), k < retry_attempts → op k = .ok a →
      (∀ j, j < k → ∃ e, op j = .error e) →
      retry_operation op = (.ok (some a), List.replicate k retry_delay)) ∧
    (∀ f : Nat → ClientError, (∀ k, k < retry_attempts → op k = .error (f k)) →
      retry_operation op = (.error (f (retry_attempts - 1)),
        List.replicate (retry_attempts - 1) retry_delay)) := by
  have hrange : List.range retry_attempts = [0, 1, 2] := rfl
  constructor
  · intro k a hk hok hfail
    have hk3 : k < 3 := hk
    interval_cases k
    · simp [retry_operation, hrange, retry_loop, hok]
    · obtain ⟨e0, he0⟩ := hfail 0 (by omega)
      simp [retry_operation, hrange, retry_loop, he0, hok, retry_attempts, retry_delay]
    · obtain ⟨e0, he0⟩ := hfail 0 (by omega)
      obtain ⟨e1, he1⟩ := hfail 1 (by omega)
      simp [retry_operation, hrange, retry_loop, he0, he1, hok, retry_attempts, retry_delay]
  · intro f hall
    have he0 := hall 0 (by decide)
    have he1 := hall 1 (by decide)
    have he2 := hall 2 (by decide)
    simp [retry_operation, hrange, retry_loop, he0, he1, he2, retry_attempts, retry_delay]

def c6op : Nat → Except ClientError String :=
  fun k => if k = 0 then .error { code := "ThrottlingException" } else .ok "created"

/-- Witness for C6: an operation failing once then succeeding is retried
after a single sleep and returns the success. -/
theorem C6_retry_behaviour_witness :
    retry_operation c6op = (.ok (some "created"), List.replicate 1 retry_delay) :=
  (C6_retry_behaviour c6op).1 1 "created" (by decide) (by rfl)
    (fun j hj => ⟨{ code := "ThrottlingException" }, by interval_cases j; rfl⟩)

lemma flatten_map_nil {β : Type} (l : List β) :
    (l.map (fun _ => ([] : Trace))).flatten = [] := by
  induction l with
  | nil => rfl
  | cons a l ih => simp [ih]

lemma update_response_plan_dry (toEngage : List String) (arns : List (String × Arn))
    (po : PlanOracle) : update_response_plan true toEngage arns po = (.ok (), []) := by
  simp only [update_response_plan]
  split
  · rfl
  · rfl

lemma delete_contact_dry (calias : String) (carn : Arn) (rm : Bool) (od : DeleteOracle) :
    (delete_contact true calias carn rm od).2 = [] := by
  simp only [delete_contact]
  cases hg : get_contact_details od with
  | error e => rfl
  | ok oname =>
    cases oname with
    | none => rfl
    | some nm =>
      simp [remove_contact_from_response_plan, delete_contact_channel, flatten_map_nil]

lemma processContacts_dry_trace (orc : String → UpdateOracle) :
    ∀ defs, (processContacts true orc defs).2.2 = []
  | [] => rfl
  | (a, arn, chans) :: rest => by
    show ([] ++ (processContacts true orc rest).2.2 : Trace) = []
    simpa using processContacts_dry_trace orc rest

lemma processPlans_dry_trace (orc : String → PlanOracle) (arns : List (String × Arn)) :
    ∀ plans, (processPlans true orc arns plans).2 = []
  | [] => rfl
  | (name, toEngage) :: rest => by
    simp only [processPlans, update_response_plan_dry]
    simpa using processPlans_dry_trace orc arns rest

lemma processDeletions_dry_trace (rm : Bool) (orc : String → DeleteOracle) :
    ∀ aliases, (processDeletions true rm orc aliases).2 = []
  | [] => rfl
  | a :: rest => by
    have ih := processDeletions_dry_trace rm orc rest
    have hd := delete_contact_dry a ("arn:contact/" ++ a) rm (orc a)
    simp only [processDeletions]
    cases hr : (delete_contact true a ("arn:contact/" ++ a) rm (orc a)).1 with
    | ok b => simp [hd, ih]
    | error e => simp [hd, ih]

/-- C9: with dry_run set, no operation of either script performs any
mutating remote call — neither creating a contact or channel, updating a
contact plan or response plan, nor deleting a channel or contact: every
mutation trace is empty, for the individual operations and for the full
work-list loops of both mains. -/
theorem C9_dry_run_performs_no_mutations (contactArn : Arn)
    (channels : List ChannelConfig) (o : UpdateOracle) (cc : ChannelConfig)
    (toEngage : List String) (arns : List (String × Arn)) (po : PlanOracle)
    (calias : String) (carn : Arn) (rm : Bool) (od : DeleteOracle)
    (plan : String) (chArn : Arn)
    (orc : String → UpdateOracle) (orcp : String → PlanOracle)
    (orcd : String → DeleteOracle)
    (contactDefs : List (String × Arn × List ChannelConfig))
    (planDefs : List (String × List String)) (aliases : List String) :
    (create_or_update_contact true contactArn channels o).2 = [] ∧
    (create_contact_channel true cc o).2 = [] ∧
    (update_response_plan true toEngage arns po).2 = [] ∧
    remove_contact_from_response_plan true carn plan od = [] ∧
    delete_contact_channel true chArn = [] ∧
    (delete_contact true calias carn rm od).2 = [] ∧
    (processContacts true orc contactDefs).2.2 = [] ∧
    (processPlans true orcp arns planDefs).2 = [] ∧
    (processDeletions true rm orcd aliases).2 = [] :=
  ⟨rfl, rfl, by rw [update_response_plan_dry], rfl, rfl,
    delete_contact_dry calias carn rm od,
    processContacts_dry_trace orc contactDefs,
    processPlans_dry_trace orcp arns planDefs,
    processDeletions_dry_trace rm orcd aliases⟩

/-- C10: get_existing_contact_channels returns the empty mapping on ANY
ClientError of the listing, not only not-found; consequently when
create_contact_channel hits a ConflictException and the follow-up
listing fails — or succeeds without containing the channel's type — it
returns None without raising, and a channel type that collected no ARN
is silently omitted from channel_info, hence from every stage of the
contact's engagement plan. -/
theorem C10_conflict_listing_failure_drops_channel :
    (∀ e : ClientError, get_existing_contact_channels false (.error e) = []) ∧
    (∀ (cc : ChannelConfig) (o : UpdateOracle) (e e2 : ClientError),
      o.createChannelResult cc.type = .error e → e.code = "ConflictException" →
      o.listChannelsAfterConflict cc.type = .error e2 →
      (create_contact_channel false cc o).1 = .ok none) ∧
    (∀ (cc : ChannelConfig) (o : UpdateOracle) (e : ClientError)
        (chans : List (String × Arn)),
      o.createChannelResult cc.type = .error e → e.code = "ConflictException" →
      o.listChannelsAfterConflict cc.type = .ok chans → dget chans cc.type = none →
      (create_contact_channel false cc o).1 = .ok none) ∧
    (∀ (channels : List ChannelConfig) (arnsByType : List (String × Arn)) (ty : String),
      dget arnsByType ty = none →
      ∀ c ∈ buildChannelInfo channels arnsByType, c.type ≠ ty) := by
  refine ⟨fun e => rfl, ?_, ?_, ?_⟩
  · intro cc o e e2 hcr hconf hlist
    simp [create_contact_channel, hcr, hconf, get_existing_contact_channels, hlist, dget]
  · intro cc o e chans hcr hconf hlist hget
    simp [create_contact_channel, hcr, hconf, get_existing_contact_channels, hlist, hget]
  · intro channels arnsByType ty hnone c hc
    obtain ⟨cc, hcc, hmk⟩ := List.mem_filterMap.mp hc
    cases hdg : dget arnsByType cc.type with
    | none => rw [hdg] at hmk; simp at hmk
    | some a =>
      rw [hdg] at hmk
      simp only [Option.some_inj] at hmk
      have hcty : c.type = cc.type := by rw [← hmk]
      intro hty
      have h2 : cc.type = ty := hcty.symm.trans hty
      rw [h2, hnone] at hdg
      exact Option.noConfusion hdg

def c10cc : ChannelConfig :=
  { type := "EMAIL", address := "x@vinamilk.com.vn", engagement_time_minutes := 15 }

def c10oracle : UpdateOracle :=
  { getContactResult := .ok ()
  , createContactResult := .ok "arn-contact"
  , listChannelsResult := .ok []
  , createChannelResult := fun _ => .error { code := "ConflictException" }
  , listChannelsAfterConflict := fun _ => .error { code := "ThrottlingException" } }

/-- Witness for C10: a throttled listing yields the empty mapping, the
conflicting EMAIL channel silently resolves to None, and no channel of
a type without an ARN reaches channel_info. -/
theorem C10_conflict_listing_failure_drops_channel_witness :
    get_existing_contact_channels false (.error { code := "ThrottlingException" }) = [] ∧
    (create_contact_channel false c10cc c10oracle).1 = .ok none ∧
    (∀ c ∈ buildChannelInfo [c10cc] [], c.type ≠ "EMAIL") :=
  ⟨C10_conflict_listing_failure_drops_channel.1 { code := "ThrottlingException" },
   C10_conflict_listing_failure_drops_channel.2.1 c10cc c10oracle
     { code := "ConflictException" } { code := "ThrottlingException" } rfl rfl rfl,
   C10_conflict_listing_failure_drops_channel.2.2.2 [c10cc] [] "EMAIL" rfl⟩

/-! ### Work-list aggregation lemmas (C7, C8) -/

lemma processDeletions_fst (dr rm : Bool) (orc : String → DeleteOracle) :
    ∀ aliases, (processDeletions dr rm orc aliases).1.map Prod.fst = aliases
  | [] => rfl
  | a :: rest => by
    simp only [processDeletions]
    cases hr : (delete_contact dr a ("arn:contact/" ++ a) rm (orc a)).1 with
    | ok b => simp [processDeletions_fst dr rm orc rest]
    | error e => simp [processDeletions_fst dr rm orc rest]

lemma processContacts_success_iff (dr : Bool) (uorc : String → UpdateOracle) :
    ∀ defs, ((processContacts dr uorc defs).2.1 = true ↔
      ∀ d ∈ defs, ¬ ∃ e : ClientError,
        (create_or_update_contact dr d.2.1 d.2.2 (uorc d.1)).1 = .error e)
  | [] => by simp [processContacts]
  | (a, arn, chans) :: rest => by
    have ih := processContacts_success_iff dr uorc rest
    simp only [processContacts]
    cases hr : (create_or_update_contact dr arn chans (uorc a)).1 with
    | ok v =>
      cases v with
      | some carn => simp [List.forall_mem_cons, hr, ih]
      | none => simp [List.forall_mem_cons, hr, ih]
    | error e => simp [List.forall_mem_cons, hr]

lemma delete_script_exit_zero_iff (m : List (String × Bool)) :
    delete_script_exit m = 0 ↔ ∀ p ∈ m, p.2 = true := by
  rw [delete_script_exit]
  split
  · rename_i hall
    simp only [List.all_eq_true] at hall
    exact iff_of_true rfl hall
  · rename_i hall
    simp only [List.all_eq_true] at hall
    exact iff_of_false (by omega) hall

lemma delete_script_exit_one_iff (m : List (String × Bool)) :
    delete_script_exit m = 1 ↔ failedAliases m ≠ [] := by
  rw [delete_script_exit]
  split
  · rename_i hall
    simp only [List.all_eq_true] at hall
    have hf : failedAliases m = [] := by
      simp only [failedAliases, List.map_eq_nil_iff]
      rw [List.filter_eq_nil_iff]
      intro p hp
      simp [hall p hp]
    exact iff_of_false (by omega) (by simp [hf])
  · rename_i hall
    simp only [List.all_eq_true] at hall
    push_neg at hall
    obtain ⟨p, hp, hfalse⟩ := hall
    have hmem : p.1 ∈ failedAliases m :=
      List.mem_map.mpr ⟨p, List.mem_filter.mpr ⟨hp, by simp [Bool.not_eq_true] at hfalse; simp [hfalse]⟩, rfl⟩
    exact iff_of_true rfl (List.ne_nil_of_mem hmem)

def c7badOracle : UpdateOracle :=
  { getContactResult := .error { code := "ThrottlingException" }
  , createContactResult := .ok "arn-new"
  , listChannelsResult := .ok []
  , createChannelResult := fun _ => .ok "arn-ch"
  , listChannelsAfterConflict := fun _ => .ok [] }

def c7planOracle : PlanOracle :=
  { getResponsePlan := .ok (), updateResponsePlan := .ok () }

def c7defs : List (String × Arn × List ChannelConfig) :=
  [("lmhung", "arn-lmhung",
    [{ type := "EMAIL", address := "lmhung@vinamilk.com.vn", engagement_time_minutes := 15 }])]

/-- C7 counterexample: in im-update1.py the single work item fails (its
contact lookup raises a non-not-found error, so main's success flag is
False), yet the process exit status is 0 — line 546 calls main() without
exit() — and the end-of-run summary lists no failed item.  This refutes
the claim that, for every work list of either script, the process exit
status is 0 only if every item succeeded (1 otherwise) with the summary
listing the failed items. -/
theorem C7_counterexample :
    update_main_result false (fun _ => c7badOracle) (fun _ => c7planOracle) c7defs [] = false ∧
    update_script_exit_status false (fun _ => c7badOracle) (fun _ => c7planOracle) c7defs []
      = 0 ∧
    update_summary_contacts false (fun _ => c7badOracle) c7defs = [] := by
  exact ⟨by decide, rfl, by decide⟩

/-- C7 amended: failures never abort the loops — the delete script
processes every alias of the work list in order and the update script's
success flag aggregates exactly the per-item outcomes — and for
im-delete-contacts.py the exit status is 0 iff every item succeeded and
1 iff the summary lists a failed item; im-update1.py, however, always
exits 0 (its main's boolean is dropped at line 546). -/
theorem C7_amended (dr rm : Bool) (orcd : String → DeleteOracle) (aliases : List String)
    (uorc : String → UpdateOracle) (orcp : String → PlanOracle)
    (defs : List (String × Arn × List ChannelConfig))
    (plans : List (String × List String)) :
    ((processDeletions dr rm orcd aliases).1.map Prod.fst = aliases) ∧
    (delete_script_exit (processDeletions dr rm orcd aliases).1 = 0 ↔
      ∀ p ∈ (processDeletions dr rm orcd aliases).1, p.2 = true) ∧
    (delete_script_exit (processDeletions dr rm orcd aliases).1 = 1 ↔
      failedAliases (processDeletions dr rm orcd aliases).1 ≠ []) ∧
    ((processContacts dr uorc defs).2.1 = true ↔
      ∀ d ∈ defs, ¬ ∃ e : ClientError,
        (create_or_update_contact dr d.2.1 d.2.2 (uorc d.1)).1 = .error e) ∧
    update_script_exit_status dr uorc orcp defs plans = 0 :=
  ⟨processDeletions_fst dr rm orcd aliases,
   delete_script_exit_zero_iff _,
   delete_script_exit_one_iff _,
   processContacts_success_iff dr uorc defs,
   rfl⟩

def c8oracle : DeleteOracle :=
  { getContactRaw := .error { code := "ResourceNotFoundException" }
  , listChannelsRaw := .ok []
  , plansUsingContact := []
  , getPlanEngagements := fun _ => .ok []
  , deleteContactResult := .ok () }

/-- C8 counterexample: deleting the nonexistent alias "ghost" does log
a warning and return without raising (delete_contact yields ok false),
but the work item is recorded as a FAILURE: the run's exit status is 1
and the summary lists "ghost" among the failed deletions — refuting the
claim that the not-found outcome is treated as absence rather than as a
failure of that work item. -/
theorem C8_counterexample :
    (delete_contact false "ghost" "arn:contact/ghost" true c8oracle).1 = .ok false ∧
    delete_script_exit (processDeletions false true (fun _ => c8oracle) ["ghost"]).1 = 1 ∧
    failedAliases (processDeletions false true (fun _ => c8oracle) ["ghost"]).1 = ["ghost"] := by
  exact ⟨rfl, rfl, rfl⟩

/-- C8 amended: when the remote lookup of an alias reports not-found,
delete_contact logs the warning and returns False without raising and
without performing any mutating call; the enclosing main then records
that alias as an unsuccessful work item (counting toward exit status 1
and the failed-deletions summary). -/
theorem C8_amended (dr rm : Bool) (calias : String) (carn : Arn) (o : DeleteOracle)
    (e : ClientError) (h : o.getContactRaw = .error e)
    (hc : e.code = "ResourceNotFoundException") :
    delete_contact dr calias carn rm o = (.ok false, []) ∧
    (∀ (rest : List String) (orc : String → DeleteOracle), orc calias = o →
      (processDeletions dr rm orc (calias :: rest)).1.head? = some (calias, false)) := by
  have hd2 : ∀ carn2 : Arn, delete_contact dr calias carn2 rm o = (.ok false, []) := by
    intro carn2
    simp [delete_contact, get_contact_details, h, hc]
  refine ⟨hd2 carn, ?_⟩
  intro rest orc horc
  simp only [processDeletions, horc, hd2]
  rfl

/-- Witness for C8 amended, at the concrete not-found oracle. -/
theorem C8_amended_witness :
    delete_contact false "ghost" "arn:contact/ghost" true c8oracle = (.ok false, []) ∧
    (∀ (rest : List String) (orc : String → DeleteOracle), orc "ghost" = c8oracle →
      (processDeletions false true orc ("ghost" :: rest)).1.head? = some ("ghost", false)) :=
  C8_amended false true "ghost" "arn:contact/ghost" c8oracle
    { code := "ResourceNotFoundException" } rfl rfl

/-- Witness for C9 at a concrete dry-run invocation. -/
theorem C9_dry_run_performs_no_mutations_witness :
    (create_or_update_contact true "arn-w" [] c7badOracle).2 = [] :=
  (C9_dry_run_performs_no_mutations "arn-w" [] c7badOracle c10cc [] [] c7planOracle
    "ghost" "arn:contact/ghost" true c8oracle "plan-w" "arn-ch-w"
    (fun _ => c7badOracle) (fun _ => c7planOracle) (fun _ => c8oracle) [] [] []).1

/-- Witness for C7 amended at a concrete one-item work list. -/
theorem C7_amended_witness :
    (processDeletions false true (fun _ => c8oracle) ["ghost"]).1.map Prod.fst = ["ghost"] :=
  (C7_amended false true (fun _ => c8oracle) ["ghost"] (fun _ => c7badOracle)
    (fun _ => c7planOracle) c7defs []).1
